import Mathlib

/-!
Verification of the reactive store / subscription / template-binding engine
of the `web-component` repository.

The repository contains three generations of the same engine:
* `src/web-component.js` lines 1-392: the `ProxyState` / WeakMap generation;
* `src/web-component.js` lines 393-753: a `createObserver` generation with a
  comma-joined subscription registry (`StateManager.subscribe` /
  `#processEvents`);
* `src/unnamed/part_000`: a `createObserver` generation that additionally
  exempts function-valued writes from event emission and implements the
  ancestor-fallback placeholder resolution (`StateManager.#fillState`).

The definitions below are a shallow embedding of those source functions:
JavaScript values become the inductive `JVal`, proxy-trap side effects become
pure functions returning the mutated value together with the list of events
they emit, and the frame-scheduled event loop becomes an explicit queue-drain
function.
-/

/-- A JavaScript runtime value, as far as the engine distinguishes them:
`undefined`, `null`, booleans, (integer) numbers, strings, functions
(identified only by a tag, since the engine tests `typeof value === 'function'`
and nothing else), objects (ordered field lists, matching JS insertion order)
and arrays. -/
inductive JVal where
  | undefined : JVal
  | jnull : JVal
  | jbool (b : Bool) : JVal
  | jnum (n : Int) : JVal
  | jstr (s : String) : JVal
  | jfun (tag : Nat) : JVal
  | jobj (fields : List (String × JVal)) : JVal
  | jarr (elems : List JVal) : JVal

/-- Models the test `typeof value === 'function'`. -/
def JVal.isFunction : JVal → Bool
  | .jfun _ => true
  | _ => false

/-- Models the test `value === undefined`. -/
def JVal.isUndefined : JVal → Bool
  | .undefined => true
  | _ => false

/-- JavaScript truthiness: `undefined`, `null`, `false`, `0` and `""` are
falsy, everything else (objects, arrays, functions included) is truthy. -/
def truthy : JVal → Bool
  | .undefined => false
  | .jnull => false
  | .jbool b => b
  | .jnum n => n != 0
  | .jstr s => s != ""
  | .jfun _ => true
  | .jobj _ => true
  | .jarr _ => true

/-- A canonical array-index property key, as JS treats integer-like keys on
arrays: a nonempty digit string with no superfluous leading zero. -/
def parseIndex (s : String) : Option Nat :=
  if s.toList ≠ [] ∧ s.toList.all Char.isDigit ∧ (s = "0" ∨ s.toList.head? ≠ some '0') then
    some (s.toList.foldl (fun acc c => acc * 10 + (c.toNat - 48)) 0)
  else none

/-- Models `Reflect.get(target, property)` / `target[property]` on the state tree:
object fields by name, array elements by numeric string index (with `length`
supported on arrays), `undefined` everywhere else. -/
def jget (target : JVal) (prop : String) : JVal :=
  match target with
  | .jobj fields => ((fields.find? (fun kv => kv.1 = prop)).map (·.2)).getD .undefined
  | .jarr elems =>
    match parseIndex prop with
    | some i => elems.getD i .undefined
    | none => if prop = "length" then .jnum elems.length else .undefined
  | _ => .undefined

/-- Models `Reflect.set(target, property, value)`: replaces an existing object field
in place, appends a new one, writes an array index (padding holes with
`undefined` like JS does past the end). Writes to primitives are dropped. -/
def jset (target : JVal) (prop : String) (v : JVal) : JVal :=
  match target with
  | .jobj fields =>
    if fields.any (fun kv => kv.1 = prop) then
      .jobj (fields.map (fun kv => if kv.1 = prop then (kv.1, v) else kv))
    else
      .jobj (fields ++ [(prop, v)])
  | .jarr elems =>
    match parseIndex prop with
    | some i =>
      if i < elems.length then .jarr (elems.set i v)
      else .jarr (elems ++ List.replicate (i - elems.length) .undefined ++ [v])
    | none => .jarr elems
  | other => other

/-- Models `Reflect.deleteProperty(target, property)`: removes an object field;
deleting an array index leaves an `undefined` hole, as in JS. -/
def jdelete (target : JVal) (prop : String) : JVal :=
  match target with
  | .jobj fields => .jobj (fields.filter (fun kv => kv.1 ≠ prop))
  | .jarr elems =>
    match parseIndex prop with
    | some i => .jarr (elems.set i .undefined)
    | none => .jarr elems
  | other => other

/-- A path segment: proxy-trap property keys are strings, the array-mutation
helpers push raw numbers (`[...path, target.length - items.length]`). -/
inductive PKey where
  | pstr (s : String) : PKey
  | pnum (n : Int) : PKey
  deriving DecidableEq

/-- String coercion of one path segment, as `Array.prototype.join` performs. -/
def PKey.str : PKey → String
  | .pstr s => s
  | .pnum n => toString n

/-- Models `path.join()` / `path.toString()`: the comma-join serialization used both
by `StateManager.subscribe` (subscription keys) and by
`StateManager.#processEvents` (event lookup). -/
def pathToString (p : List PKey) : String :=
  String.intercalate "," (p.map PKey.str)

/-- One emitted change record, as pushed by `#emitEvent` and destructured by
`#processEvents`: `{ event, path, oldValue, newValue }`. The kind is the
string from `EVENT_TYPES` (`'assign' | 'change' | 'remove' | 'add' | 'move'`);
a three-argument `emitEvent` call leaves `newValue` as `undefined`. -/
structure Event where
  event : String
  path : List PKey
  oldValue : JVal
  newValue : JVal

namespace Part000

/-- The `set` trap of `createObserver` in `src/unnamed/part_000` (lines
18-29): read the old value, perform the write, and — unless the written value
is a function — emit `CHANGE` (old defined) or `ASSIGN` (old `undefined`) at
`[...path, property]`. Returns the updated target together with the list of
events emitted before the trap returns. -/
def observerSet (path : List PKey) (target : JVal) (prop : String) (value : JVal) :
    JVal × List Event :=
  let oldValue := jget target prop
  let target' := jset target prop value
  let eventPath := path ++ [PKey.pstr prop]
  if value.isFunction then (target', [])
  else if !oldValue.isUndefined then
    (target', [⟨"change", eventPath, oldValue, value⟩])
  else
    (target', [⟨"assign", eventPath, JVal.undefined, value⟩])

/-- The `deleteProperty` trap of `createObserver` in `src/unnamed/part_000`
(lines 30-35): read the old value, delete, and unconditionally emit `REMOVE`
at `[...path, property]` carrying the old value (`newValue` stays
`undefined`). -/
def observerDelete (path : List PKey) (target : JVal) (prop : String) :
    JVal × List Event :=
  let oldValue := jget target prop
  let target' := jdelete target prop
  (target', [⟨"remove", path ++ [PKey.pstr prop], oldValue, JVal.undefined⟩])

end Part000

namespace WebComponent

/-- The `set` trap of `createObserver` in `src/web-component.js` (lines
412-421): identical to the `part_000` trap except that it has no
function-value exemption — every write emits `CHANGE` or `ASSIGN`. -/
def observerSet (path : List PKey) (target : JVal) (prop : String) (value : JVal) :
    JVal × List Event :=
  let oldValue := jget target prop
  let target' := jset target prop value
  let eventPath := path ++ [PKey.pstr prop]
  if !oldValue.isUndefined then
    (target', [⟨"change", eventPath, oldValue, value⟩])
  else
    (target', [⟨"assign", eventPath, JVal.undefined, value⟩])

end WebComponent

mutual

/-- JavaScript string coercion `String(value)`, as performed by
`String.prototype.replace` on a non-string replacement and by `setAttribute`.
Array elements join with commas, `undefined`/`null` elements rendering
empty. -/
def jvalToString : JVal → String
  | .undefined => "undefined"
  | .jnull => "null"
  | .jbool b => if b then "true" else "false"
  | .jnum n => toString n
  | .jstr s => s
  | .jfun t => "function () [" ++ toString t ++ "]"
  | .jobj _ => "[object Object]"
  | .jarr elems => jarrToString elems
termination_by structural v => v

/-- Comma-join of coerced array elements, for `jvalToString`; `undefined`
and `null` elements render empty inside an array join. -/
def jarrToString : List JVal → String
  | [] => ""
  | [.undefined] => ""
  | [.jnull] => ""
  | [e] => jvalToString e
  | .undefined :: rest => "," ++ jarrToString rest
  | .jnull :: rest => "," ++ jarrToString rest
  | e :: rest => jvalToString e ++ "," ++ jarrToString rest
termination_by structural l => l

end

namespace Part000

/-- JavaScript `Array.prototype.splice(start, deleteCount, ...items)`
(ECMA-262): `start` clamps into the array, counting from the end when
negative; `deleteCount` clamps to the available range; the clamped slice is
removed and `items` inserted in its place. Returns the deleted elements and
the updated array. -/
def jsplice (arr : List JVal) (start deleteCount : Int) (items : List JVal) :
    List JVal × List JVal :=
  let len : Int := arr.length
  let actualStart : Nat :=
    (if start < 0 then max (len + start) 0 else min start len).toNat
  let actualDelete : Nat := (max 0 (min deleteCount (len - actualStart))).toNat
  let deleted := (arr.drop actualStart).take actualDelete
  (deleted, arr.take actualStart ++ items ++ arr.drop (actualStart + actualDelete))

/-- The `push` handler installed by `createObserver` on arrays
(src/unnamed/part_000 lines 40-44; textually identical in
src/web-component.js lines 433-437): append the items, then emit `ADD` at
`[...path, target.length - items.length]` (the first inserted index, the
length being read after the push) carrying the items. Returns JS `push`'s
result (the new length), the updated array and the emitted events. -/
def observerPush (path : List PKey) (arr : List JVal) (items : List JVal) :
    Nat × List JVal × List Event :=
  let arr' := arr ++ items
  (arr'.length, arr',
    [⟨"add", path ++ [PKey.pnum ((arr'.length : Int) - (items.length : Int))],
      JVal.undefined, .jarr items⟩])

/-- The `pop` handler (src/unnamed/part_000 lines 45-49; identical in
src/web-component.js lines 438-442): pop, then emit `REMOVE` at
`[...path, target.length]` (the length after popping) carrying the popped
value — on an empty array JS `pop` returns `undefined` and the event still
fires. -/
def observerPop (path : List PKey) (arr : List JVal) :
    JVal × List JVal × List Event :=
  let oldValue := (arr.getLast?).getD JVal.undefined
  let arr' := arr.dropLast
  (oldValue, arr',
    [⟨"remove", path ++ [PKey.pnum (arr'.length : Int)], oldValue, JVal.undefined⟩])

/-- The `shift` handler (src/unnamed/part_000 lines 50-54; identical in
src/web-component.js lines 443-447): shift, then emit `REMOVE` at
`[...path, 0]` carrying the shifted value — `undefined` on an empty array. -/
def observerShift (path : List PKey) (arr : List JVal) :
    JVal × List JVal × List Event :=
  let oldValue := (arr.head?).getD JVal.undefined
  let arr' := arr.tail
  (oldValue, arr', [⟨"remove", path ++ [PKey.pnum 0], oldValue, JVal.undefined⟩])

/-- The `unshift` handler (src/unnamed/part_000 lines 55-59): prepend the
items, then emit `ADD` at `[...path, 0]` carrying the items. -/
def observerUnshift (path : List PKey) (arr : List JVal) (items : List JVal) :
    Nat × List JVal × List Event :=
  let arr' := items ++ arr
  (arr'.length, arr', [⟨"add", path ++ [PKey.pnum 0], JVal.undefined, .jarr items⟩])

/-- The `splice` handler (src/unnamed/part_000 lines 60-69; identical in
src/web-component.js lines 453-462): perform the splice; if anything was
deleted emit `REMOVE` at `[...path, start]` carrying the deleted items; then,
independently, if any items were passed emit `ADD` at `[...path, start]`
carrying them. Returns the deleted items (JS `splice`'s result), the updated
array and the events in emission order. -/
def observerSplice (path : List PKey) (arr : List JVal) (start deleteCount : Int)
    (items : List JVal) : List JVal × List JVal × List Event :=
  let r := jsplice arr start deleteCount items
  let deletedItems := r.1
  let evs :=
    (if deletedItems.length > 0 then
      [⟨"remove", path ++ [PKey.pnum start], .jarr deletedItems, JVal.undefined⟩]
    else []) ++
    (if items.length > 0 then
      [⟨"add", path ++ [PKey.pnum start], JVal.undefined, .jarr items⟩]
    else [])
  (deletedItems, r.2, evs)

/-- The `sort` handler (src/unnamed/part_000 lines 70-75): snapshot the array,
sort it in place (the reordering itself is JS's comparator sort, passed in
here as the already-sorted array since no claim depends on the ordering
algorithm), and emit one `MOVE` at the array's own path carrying the old and
new arrays whole. -/
def observerSort (path : List PKey) (arr : List JVal) (sorted : List JVal) :
    List JVal × List Event :=
  (sorted, [⟨"move", path, .jarr arr, .jarr sorted⟩])

end Part000

/-- Models `StateManager.#processEvents` (src/web-component.js lines 540-554;
src/unnamed/part_000 lines 283-297): `while (this.#events.length)` — shift
the head event off the queue, deliver it to its matching consumers, and keep
going until the queue is empty. A consumer may mutate state while being
invoked; its `#emitEvent` pushes onto the *same* `#events` queue, which the
running `while` loop re-checks, so `handler e` below stands for the events
enqueued during the delivery of `e` (appended at the tail). `fuel` bounds the
loop's iteration count; the result is the delivered log in delivery order
and whatever is still queued when the fuel runs out. -/
def processEvents (handler : Event → List Event) :
    Nat → List Event → List Event × List Event
  | 0, queue => ([], queue)
  | _ + 1, [] => ([], [])
  | fuel + 1, e :: rest =>
    let r := processEvents handler fuel (rest ++ handler e)
    (e :: r.1, r.2)

/-- Models `Template.keyFrom` (src/web-component.js line 513): strip one pair of
curly braces when present, otherwise return the text unchanged. (The
part_000 generation strips a `$`-prefixed pair instead; the claims use bare
keys, on which both are the identity.) -/
def keyFrom (s : String) : String :=
  match s.toList with
  | '\x7b' :: rest => String.mk rest.dropLast
  | _ => s

/-- The subscription registry `StateManager.consumers`: a `Map` from a
serialized path (the *subject*) to the list of consumers registered under it,
in insertion order. Consumers are identified by numeric tags. -/
abbrev Registry := List (String × List Nat)

/-- One registry insertion step of `StateManager.subscribe`: append the
consumer to the subject's list, creating the entry if absent. -/
def addConsumer (reg : Registry) (subject : String) (c : Nat) : Registry :=
  if reg.any (fun kv => kv.1 = subject) then
    reg.map (fun kv => if kv.1 = subject then (kv.1, kv.2 ++ [c]) else kv)
  else reg ++ [(subject, [c])]

/-- Models `StateManager.subscribe(path, vars, consumer)` (src/web-component.js
lines 562-571; the identical private `#subscribe` is src/unnamed/part_000
lines 315-324): for each var, register the consumer under the subject
`[...path, keyFrom(var)].toString()` — the comma-join serialization. -/
def subscribe (reg : Registry) (path : List PKey) (vars : List String) (c : Nat) :
    Registry :=
  vars.foldl (fun r v => addConsumer r (pathToString (path ++ [PKey.pstr (keyFrom v)])) c) reg

/-- The consumer-matching step of `StateManager.#processEvents`
(src/web-component.js lines 544-549): walk every registry entry and collect
the consumers of those whose subject equals `path.join()`, in registry
order. -/
def matchingConsumers (reg : Registry) (path : List PKey) : List Nat :=
  ((reg.filter (fun kv => kv.1 = pathToString path)).map (fun kv => kv.2)).flatten

/-- A template string pre-parsed against `Template.curlyBraces`: the matched
placeholder substrings become `TPart.key` parts carrying the captured key,
the text between matches stays literal. -/
inductive TPart where
  | lit (s : String) : TPart
  | key (k : String) : TPart
  deriving DecidableEq

/-- The literal text a parsed template stands for, with each placeholder part
rendered back as its matched substring `${k}` — what
`String.prototype.replace`'s callback receives as `match` and what an
untouched template reads as. -/
def renderParts (parts : List TPart) : String :=
  parts.foldl (fun acc p =>
    acc ++ match p with
      | .lit s => s
      | .key k => "$\x7b" ++ k ++ "\x7d") ""

/-- Models `Template.fill(text, data)` (src/web-component.js line 514, same line 121
of src/unnamed/part_000): replace every placeholder match by
`data[key] || ''` — the raw value when truthy, the empty string otherwise —
string-coerced by `replace`. -/
def Template.fill (parts : List TPart) (data : JVal) : String :=
  parts.foldl (fun acc p =>
    acc ++ match p with
      | .lit s => s
      | .key k => let v := jget data k; if truthy v then jvalToString v else "") ""

/-- The attribute re-fill consumer built by `StateManager.#bindAttributes`
(src/web-component.js lines 659-677) for an attribute whose value matched a
placeholder: fill the first matched placeholder template from the scope's
state, then `if (attribute) setAttribute else removeAttribute`. The result is
the attribute's presence and value after the consumer ran: `none` means the
attribute was removed. -/
def attributeAfterFill (template : List TPart) (state : JVal) : Option String :=
  let filled := Template.fill template state
  if filled ≠ "" then some filled else none

namespace Part000

/-- Walks down from the root along a path of string keys, the
`currentPath.reduce` / re-walk loops of part_000: read each key in turn
starting at the root state (total — a missing key yields `undefined` where
JS would throw on the next read; no claim exercises the throwing case). -/
def walkDown (state : JVal) (cp : List String) : JVal :=
  cp.foldl jget state

/-- The first loop of `StateManager.#fillState` (src/unnamed/part_000 lines
163-180): `for (const key of currentPath)` walking `currentObject` down; a
miss (`!currentObject[key]` — a falsiness test) pops the last segment of
`currentPath` *during* the iteration, returns the template if the path
emptied, and otherwise restarts `currentObject` with a fresh root walk over
the shortened path. The JS array iterator advances its index each round
against the possibly-shortened array; the loop state (index `i`, path `cp`)
is encoded here by `remaining = cp.length - i`. In the miss branch the next
index is checked against the popped path, so `remaining` drops by two (the
loop exits at `remaining = 1`). Returns `none` for the return-template exit,
otherwise the final path and object. -/
def scopeLoop (state : JVal) : Nat → List String → JVal → Option (List String × JVal)
  | 0, cp, cur => some (cp, cur)
  | remaining + 1, cp, cur =>
    let i := cp.length - (remaining + 1)
    let key := cp.getD i ""
    let v := jget cur key
    if truthy v then
      scopeLoop state remaining cp v
    else
      let cp' := cp.dropLast
      if cp'.isEmpty then none
      else
        match remaining with
        | 0 => some (cp', walkDown state cp')
        | remaining' + 1 => scopeLoop state remaining' cp' (walkDown state cp')

/-- Entry into `scopeLoop`: the iteration starts at index 0 over a copy of
the scope path, with `currentObject = this.#state`. -/
def fillScope (state : JVal) (path : List String) : Option (List String × JVal) :=
  scopeLoop state path.length path state

/-- The replacement callback's ancestor scan in `StateManager.#fillState`
(src/unnamed/part_000 lines 184-190):
`for (let i = currentPath.length; i >= 0 && !value; i--)` — look `varName` up
on the object at each prefix of `currentPath`, longest (nearest scope) first;
stop at the first truthy value; index 0 reads the root state itself, and its
value (possibly falsy) is what the loop leaves behind. -/
def scanUp (state : JVal) (cp : List String) (varName : String) : Nat → JVal
  | 0 => jget state varName
  | i + 1 =>
    let obj := walkDown state (cp.take (i + 1))
    let v := jget obj varName
    if truthy v then v else scanUp state cp varName i

/-- Models `StateManager.#fillState(template, path, vars)` (src/unnamed/part_000
lines 159-192) over a pre-parsed template: with no vars the template is
returned verbatim; the scope walk (`scopeLoop`) may bail out to the verbatim
template; otherwise every placeholder is replaced by `value || match` where
`value` is the ancestor scan's result — the nearest truthy ancestor value,
string-coerced, falling back to the matched placeholder text itself. -/
def fillState (state : JVal) (parts : List TPart) (path : List String)
    (vars : List String) : String :=
  if vars.isEmpty then renderParts parts
  else match fillScope state path with
  | none => renderParts parts
  | some (cp, _) =>
    parts.foldl (fun acc p =>
      acc ++ match p with
        | .lit s => s
        | .key k =>
          let value := scanUp state cp k cp.length
          if truthy value then jvalToString value else "$\x7b" ++ k ++ "\x7d") ""

end Part000


/-- A consumer-free event: an `ASSIGN` at path `["a"]`, used as a concrete
queued event in the scheduler theorems. -/
def evA : Event := ⟨"assign", [PKey.pstr "a"], .undefined, .jnum 1⟩

/-- A second concrete event, an `ASSIGN` at path `["b"]`. -/
def evB : Event := ⟨"assign", [PKey.pstr "b"], .undefined, .jnum 2⟩

/-- A consumer behavior in which delivering the event at path `["a"]` makes a
consumer perform a mutation, whose `#emitEvent` pushes the event at `["b"]`
onto the queue while the flush is running; every other delivery enqueues
nothing. -/
def reentrantHandler (e : Event) : List Event :=
  if e.path = [PKey.pstr "a"] then [evB] else []

/-- The spec §8 example state with `title` defined both at the list item and
at the root: `{ items: [{ title: "local" }], title: "roottitle" }`. -/
def itemTitleState : JVal :=
  .jobj [("items", .jarr [.jobj [("title", .jstr "local")]]), ("title", .jstr "roottitle")]

/-- The spec §8 example state with `title` defined only at the root:
`{ items: [{ n: "a" }], title: "roottitle" }`. -/
def rootTitleState : JVal :=
  .jobj [("items", .jarr [.jobj [("n", .jstr "a")]]), ("title", .jstr "roottitle")]

/-- A state in which no ancestor defines `title` at all:
`{ items: [{ n: "a" }] }`. -/
def noTitleState : JVal :=
  .jobj [("items", .jarr [.jobj [("n", .jstr "a")]])]

/-- A state in which the key `k` is absent at the scope `["a","b"]`, defined
with the falsy value `0` at the intermediate ancestor `["a"]`, and defined
with a truthy string at the root:
`{ a: { k: 0, b: { x: 1 } }, k: "rootv" }`. -/
def falsyAncestorState : JVal :=
  .jobj [("a", .jobj [("k", .jnum 0), ("b", .jobj [("x", .jnum 1)])]), ("k", .jstr "rootv")]

theorem JVal.isUndefined_iff {v : JVal} : v.isUndefined = true ↔ v = .undefined := by
  cases v <;> simp [JVal.isUndefined]

/-- C1: for every `set(path, value)`, the emitted event is `ASSIGN` with
`oldValue = undefined` and `newValue = value` when the prior value at the
path is `undefined`, and otherwise `CHANGE` carrying the old and the new
value — unconditionally so in the `src/web-component.js` observer, and for
every event the `part_000` observer emits (the latter emits nothing for a
function-valued write, see C6). -/
theorem set_event_kind (path : List PKey) (target : JVal) (prop : String) (value : JVal) :
    (WebComponent.observerSet path target prop value).2 =
      [⟨if (jget target prop).isUndefined then "assign" else "change",
        path ++ [PKey.pstr prop], jget target prop, value⟩] ∧
    (Part000.observerSet path target prop value).2 =
      (if value.isFunction then [] else
        [⟨if (jget target prop).isUndefined then "assign" else "change",
          path ++ [PKey.pstr prop], jget target prop, value⟩]) := by
  constructor
  · cases h : (jget target prop).isUndefined with
    | true => simp [WebComponent.observerSet, h, JVal.isUndefined_iff.1 h, JVal.isUndefined]
    | false => simp [WebComponent.observerSet, h]
  · cases hf : value.isFunction with
    | true => simp [Part000.observerSet, hf]
    | false =>
      cases h : (jget target prop).isUndefined with
      | true => simp [Part000.observerSet, hf, h, JVal.isUndefined_iff.1 h, JVal.isUndefined]
      | false => simp [Part000.observerSet, hf, h]

/-- C5 counterexample: a single `splice(0, 1, item)` call on `[1]` — one
state-mutation call — emits two events (`REMOVE` then `ADD`), not exactly
one. -/
theorem splice_two_events_counterexample :
    (Part000.observerSplice [] [.jnum 1] 0 1 [.jnum 2]).2.2 =
      [⟨"remove", [PKey.pnum 0], .jarr [.jnum 1], JVal.undefined⟩,
       ⟨"add", [PKey.pnum 0], JVal.undefined, .jarr [.jnum 2]⟩] ∧
    ((Part000.observerSplice [] [.jnum 1] 0 1 [.jnum 2]).2.2).length ≠ 1 := by
  exact ⟨rfl, by decide⟩

/-- C5 amended: every `set` of a non-function value, every `delete`, and
every `push`/`pop`/`shift`/`unshift`/`sort` call emits exactly one event
before returning its result (the events are part of the operation's return
in this embedding); a `set` of a function value emits none; a `splice` call
emits one `REMOVE` if it deleted anything plus one `ADD` if it inserted
anything — zero, one or two events. -/
theorem mutation_event_counts :
    (∀ (path : List PKey) (target : JVal) (prop : String) (value : JVal),
      value.isFunction = false → ((Part000.observerSet path target prop value).2).length = 1) ∧
    (∀ (path : List PKey) (target : JVal) (prop : String) (value : JVal),
      value.isFunction = true → ((Part000.observerSet path target prop value).2).length = 0) ∧
    (∀ (path : List PKey) (target : JVal) (prop : String),
      ((Part000.observerDelete path target prop).2).length = 1) ∧
    (∀ (path : List PKey) (arr items : List JVal),
      ((Part000.observerPush path arr items).2.2).length = 1) ∧
    (∀ (path : List PKey) (arr : List JVal),
      ((Part000.observerPop path arr).2.2).length = 1) ∧
    (∀ (path : List PKey) (arr : List JVal),
      ((Part000.observerShift path arr).2.2).length = 1) ∧
    (∀ (path : List PKey) (arr items : List JVal),
      ((Part000.observerUnshift path arr items).2.2).length = 1) ∧
    (∀ (path : List PKey) (arr sorted : List JVal),
      ((Part000.observerSort path arr sorted).2).length = 1) ∧
    (∀ (path : List PKey) (arr : List JVal) (start deleteCount : Int) (items : List JVal),
      ((Part000.observerSplice path arr start deleteCount items).2.2).length =
        (if 0 < (Part000.jsplice arr start deleteCount items).1.length then 1 else 0) +
        (if 0 < items.length then 1 else 0)) := by
  refine ⟨?_, ?_, ?_, ?_, ?_, ?_, ?_, ?_, ?_⟩
  · intro path target prop value hf
    cases h : (jget target prop).isUndefined <;>
      simp [Part000.observerSet, hf, h]
  · intro path target prop value hf
    simp [Part000.observerSet, hf]
  · intro path target prop
    simp [Part000.observerDelete]
  · intro path arr items
    simp [Part000.observerPush]
  · intro path arr
    simp [Part000.observerPop]
  · intro path arr
    simp [Part000.observerShift]
  · intro path arr items
    simp [Part000.observerUnshift]
  · intro path arr sorted
    simp [Part000.observerSort]
  · intro path arr start deleteCount items
    by_cases hd : 0 < (Part000.jsplice arr start deleteCount items).1.length <;>
      by_cases hi : 0 < items.length <;>
        simp [Part000.observerSplice, hd, hi]

/-- C5 witness: the amended count rule evaluated on a concrete non-function
write — one event. -/
theorem mutation_event_counts_witness :
    JVal.isFunction (.jnum 3) = false ∧
    ((Part000.observerSet [] (.jobj []) "x" (.jnum 3)).2).length = 1 :=
  ⟨rfl, mutation_event_counts.1 [] (.jobj []) "x" (.jnum 3) rfl⟩

/-- C6 counterexample: in the `src/web-component.js` generation of
`createObserver` (lines 412-421) a function-valued write is not exempted —
setting a function onto a fresh slot emits an `ASSIGN` event. -/
theorem function_write_emits_counterexample :
    (WebComponent.observerSet [] (.jobj []) "helper" (.jfun 0)).2 =
      [⟨"assign", [PKey.pstr "helper"], JVal.undefined, .jfun 0⟩] ∧
    (WebComponent.observerSet [] (.jobj []) "helper" (.jfun 0)).2 ≠ [] :=
  ⟨rfl, List.cons_ne_nil _ _⟩

/-- C6 amended: in the `part_000` generation of `createObserver` (the one
with the exemption, src/unnamed/part_000 line 22) a function-valued write
emits no event; the older `src/web-component.js` `createObserver` generation
emits an `ASSIGN`/`CHANGE` even for functions. -/
theorem function_write_silent_part000 :
    ∀ (path : List PKey) (target : JVal) (prop : String) (tag : Nat),
      (Part000.observerSet path target prop (.jfun tag)).2 = [] := by
  intro path target prop tag
  simp [Part000.observerSet, JVal.isFunction]

/-- C7: a `splice(start, deleteCount, ...items)` call emits a `REMOVE` at
`[...path, start]` carrying the deleted items exactly when at least one
element was deleted, followed independently by an `ADD` at `[...path, start]`
carrying the items exactly when at least one item was inserted; the length
bookkeeping (new length + deleted = old length + inserted) certifies that the
`REMOVE` condition coincides with elements actually leaving the array, and
the concrete instance shows both events firing for one call. -/
theorem splice_event_rule :
    (∀ (path : List PKey) (arr : List JVal) (start deleteCount : Int) (items : List JVal),
      (Part000.observerSplice path arr start deleteCount items).2.2 =
        (if 0 < (Part000.jsplice arr start deleteCount items).1.length then
          [⟨"remove", path ++ [PKey.pnum start],
            .jarr (Part000.jsplice arr start deleteCount items).1, JVal.undefined⟩]
         else []) ++
        (if 0 < items.length then
          [⟨"add", path ++ [PKey.pnum start], JVal.undefined, .jarr items⟩]
         else [])) ∧
    (∀ (arr : List JVal) (start deleteCount : Int) (items : List JVal),
      (Part000.jsplice arr start deleteCount items).2.length +
        (Part000.jsplice arr start deleteCount items).1.length =
        arr.length + items.length) ∧
    (Part000.observerSplice [] [.jnum 1, .jnum 2] 1 1 [.jnum 3, .jnum 4]).2.2 =
      [⟨"remove", [PKey.pnum 1], .jarr [.jnum 2], JVal.undefined⟩,
       ⟨"add", [PKey.pnum 1], JVal.undefined, .jarr [.jnum 3, .jnum 4]⟩] := by
  refine ⟨?_, ?_, rfl⟩
  · intro path arr start deleteCount items
    rfl
  · intro arr start deleteCount items
    simp only [Part000.jsplice, List.length_append, List.length_take, List.length_drop]
    split <;> omega

/-- C9: `REMOVE` emission does not depend on the slot existing — deleting an
absent property emits a `REMOVE` whose removed-value payload is `undefined`,
and `pop`/`shift` on an empty array each emit a `REMOVE` with payload
`undefined` (at the vacated index 0), even though nothing was removed. -/
theorem remove_unconditional :
    (∀ (path : List PKey) (target : JVal) (prop : String),
      jget target prop = .undefined →
      (Part000.observerDelete path target prop).2 =
        [⟨"remove", path ++ [PKey.pstr prop], JVal.undefined, JVal.undefined⟩]) ∧
    (∀ path : List PKey, (Part000.observerPop path []).2.2 =
      [⟨"remove", path ++ [PKey.pnum 0], JVal.undefined, JVal.undefined⟩]) ∧
    (∀ path : List PKey, (Part000.observerShift path []).2.2 =
      [⟨"remove", path ++ [PKey.pnum 0], JVal.undefined, JVal.undefined⟩]) := by
  refine ⟨?_, fun path => rfl, fun path => rfl⟩
  intro path target prop h
  simp [Part000.observerDelete, h]

/-- C9 witness: deleting the absent property `"gone"` from an empty object
emits the `REMOVE` event with an `undefined` payload. -/
theorem remove_unconditional_witness :
    jget (.jobj []) "gone" = .undefined ∧
    (Part000.observerDelete [] (.jobj []) "gone").2 =
      [⟨"remove", [PKey.pstr "gone"], JVal.undefined, JVal.undefined⟩] :=
  ⟨rfl, remove_unconditional.1 [] (.jobj []) "gone" rfl⟩

/-- C2: subscription matching is exact-path only — a consumer registered by
`subscribe` under path `P` and var `v` is invoked by `#processEvents` for an
event exactly when the event's path serializes to the same key as
`[...P, keyFrom v]`; in particular a consumer subscribed to
`["user","name"]` never fires for a mutation at `["user"]` or at
`["user","age"]`. -/
theorem exact_path_matching :
    (∀ (P : List PKey) (v : String) (c : Nat) (ep : List PKey),
      c ∈ matchingConsumers (subscribe [] P [v] c) ep ↔
        pathToString (P ++ [PKey.pstr (keyFrom v)]) = pathToString ep) ∧
    matchingConsumers (subscribe [] [PKey.pstr "user"] ["name"] 0) [PKey.pstr "user"] = [] ∧
    matchingConsumers (subscribe [] [PKey.pstr "user"] ["name"] 0)
      [PKey.pstr "user", PKey.pstr "age"] = [] := by
  refine ⟨?_, rfl, rfl⟩
  intro P v c ep
  by_cases h : pathToString (P ++ [PKey.pstr (keyFrom v)]) = pathToString ep <;>
    simp [subscribe, addConsumer, matchingConsumers, List.filter, h]

/-- C2 witness: the consumer subscribed at `["user"]` with var `"name"`
(key `"user,name"`) does fire for an event at exactly `["user","name"]`. -/
theorem exact_path_matching_witness :
    0 ∈ matchingConsumers (subscribe [] [PKey.pstr "user"] ["name"] 0)
      [PKey.pstr "user", PKey.pstr "name"] :=
  (exact_path_matching.1 [PKey.pstr "user"] "name" 0
    [PKey.pstr "user", PKey.pstr "name"]).mpr rfl

/-- C10: subscription-key serialization is the comma-join of the segments and
is not injective: the distinct paths `["a,b"]` and `["a","b"]` share the
serialized key, so a consumer subscribed under `["a,b"]` is invoked for an
event emitted at `["a","b"]`. -/
theorem comma_join_collision :
    pathToString [PKey.pstr "x", PKey.pstr "y"] = "x,y" ∧
    pathToString [PKey.pstr "a,b"] = pathToString [PKey.pstr "a", PKey.pstr "b"] ∧
    ([PKey.pstr "a,b"] : List PKey) ≠ [PKey.pstr "a", PKey.pstr "b"] ∧
    matchingConsumers (subscribe [] [] ["a,b"] 7) [PKey.pstr "a", PKey.pstr "b"] = [7] :=
  ⟨rfl, rfl, by decide, rfl⟩

/-- C3 counterexample: one event is queued and its consumer enqueues a fresh
event while the flush is delivering it; the `while` loop of `#processEvents`
delivers the re-entrantly enqueued event in the *same* flush — the delivered
log is `[evA, evB]` and nothing remains queued for a next frame — refuting
"not delivered during that flush but on the next frame's flush". -/
theorem reentrant_event_same_flush :
    processEvents reentrantHandler 2 [evA] = ([evA, evB], []) ∧
    evB ∈ (processEvents reentrantHandler 2 [evA]).1 :=
  ⟨rfl, List.mem_cons_of_mem _ (List.mem_singleton.mpr rfl)⟩

/-- C3 amended: queued events are delivered in FIFO enqueue order (with no
consumer-enqueued events the flush delivers exactly the queue, in order), and
an event enqueued by a consumer during the flush is appended at the tail of
the same queue and drained by the *same* flush — the loop keeps shifting
until the queue is empty, with no deferral to the next frame. -/
theorem flush_fifo_full_drain :
    (∀ (h : Event → List Event) (q : List Event) (n : Nat),
      (∀ e, h e = []) → q.length ≤ n → processEvents h n q = (q, [])) ∧
    (∀ (h : Event → List Event) (n : Nat) (e : Event) (rest : List Event),
      processEvents h (n + 1) (e :: rest) =
        (e :: (processEvents h n (rest ++ h e)).1,
         (processEvents h n (rest ++ h e)).2)) := by
  constructor
  · intro h q
    induction q with
    | nil => intro n _ _; cases n <;> rfl
    | cons e rest ih =>
      intro n hne hlen
      cases n with
      | zero => simp at hlen
      | succ m =>
        simp only [processEvents, hne e, List.append_nil]
        rw [ih m hne (by simpa using hlen)]
  · intro h n e rest
    rfl

/-- C3 witness: a flush over a two-event queue whose consumers enqueue
nothing delivers both events in enqueue order and leaves the queue empty. -/
theorem flush_fifo_full_drain_witness :
    processEvents (fun _ => []) 2 [evA, evB] = ([evA, evB], []) :=
  flush_fifo_full_drain.1 (fun _ => []) [evA, evB] 2 (fun _ => rfl) (by decide)

/-- C4 counterexample: in `falsyAncestorState` the key `k` is not present at
the scope `["a","b"]`; the closest ancestor defining `k` is `["a"]`, with
value `0`, but resolution skips it (the ancestor scan tests truthiness, not
presence) and renders the root's `"rootv"` where the claim requires the
nearer `0` to win. -/
theorem closest_defined_ancestor_skipped :
    jget (jget (jget falsyAncestorState "a") "b") "k" = .undefined ∧
    jget (jget falsyAncestorState "a") "k" = .jnum 0 ∧
    jget falsyAncestorState "k" = .jstr "rootv" ∧
    Part000.fillState falsyAncestorState [.key "k"] ["a", "b"] ["k"] = "rootv" ∧
    Part000.fillState falsyAncestorState [.key "k"] ["a", "b"] ["k"] ≠ "0" :=
  ⟨rfl, rfl, rfl, rfl, by decide⟩

theorem scanUp_finds_nearest (state : JVal) (cp : List String) (v : String) :
    ∀ (n i : Nat), i ≤ n → n ≤ cp.length →
      truthy (jget (Part000.walkDown state (cp.take i)) v) = true →
      (∀ j, i < j → j ≤ n →
        truthy (jget (Part000.walkDown state (cp.take j)) v) = false) →
      Part000.scanUp state cp v n = jget (Part000.walkDown state (cp.take i)) v := by
  intro n
  induction n with
  | zero =>
    intro i hi _ _ _
    have h0 : i = 0 := Nat.le_zero.mp hi
    subst h0
    rfl
  | succ m ih =>
    intro i hi hlen htr hfal
    by_cases hcase : i = m + 1
    · subst hcase
      simp only [Part000.scanUp]
      rw [if_pos htr]
    · have hm1 : truthy (jget (Part000.walkDown state (cp.take (m + 1))) v) = false :=
        hfal (m + 1) (by omega) le_rfl
      simp only [Part000.scanUp]
      rw [if_neg (by simp [hm1])]
      exact ih i (by omega) (by omega) htr (fun j hj hjm => hfal j hj (by omega))

/-- C4 amended: resolution walks the ancestor chain from the scope path
outward to the root, and the nearest ancestor whose value for the key is
*truthy* wins; an ancestor at which the key is absent or has a falsy value
(such as `0` or `""`) is skipped. The spec examples hold as stated: with
scope `["items","0"]`, a truthy `title` at the item beats the root's, a
`title` defined only at the root is still found, and when no ancestor
defines `title` the literal placeholder text is rendered unchanged without
throwing. -/
theorem nearest_truthy_ancestor_wins :
    (∀ (state : JVal) (cp : List String) (v : String) (i : Nat),
      i ≤ cp.length →
      truthy (jget (Part000.walkDown state (cp.take i)) v) = true →
      (∀ j, i < j → j ≤ cp.length →
        truthy (jget (Part000.walkDown state (cp.take j)) v) = false) →
      Part000.scanUp state cp v cp.length =
        jget (Part000.walkDown state (cp.take i)) v) ∧
    Part000.fillState itemTitleState [.key "title"] ["items", "0"] ["title"] = "local" ∧
    Part000.fillState rootTitleState [.key "title"] ["items", "0"] ["title"] = "roottitle" ∧
    Part000.fillState noTitleState [.key "title"] ["items", "0"] ["title"] =
      "$\x7btitle\x7d" := by
  refine ⟨?_, rfl, rfl, rfl⟩
  intro state cp v i hi htr hfal
  exact scanUp_finds_nearest state cp v cp.length i hi le_rfl htr hfal

/-- C4 witness: the amended rule evaluated at the item-title example — the
scan over scope `["items","0"]` returns the item's own `title`. -/
theorem nearest_truthy_ancestor_wins_witness :
    Part000.scanUp itemTitleState ["items", "0"] "title" 2 = .jstr "local" :=
  (nearest_truthy_ancestor_wins.1 itemTitleState ["items", "0"] "title" 2
    (by decide) rfl
    (fun j hj hj' => absurd (lt_of_lt_of_le hj hj') (lt_irrefl 2))).trans rfl

/-- C8: filling an attribute template whose resolved value is `""`, `0`, or
`undefined` removes the attribute (the consumer takes the `removeAttribute`
branch) rather than setting it to an empty string, while a resolved value of
`"0"` — a nonempty, truthy string — keeps the attribute set to `"0"`. -/
theorem attribute_absence_policy :
    ∀ (st : JVal) (k : String),
      (jget st k = .jstr "" → attributeAfterFill [.key k] st = none) ∧
      (jget st k = .jnum 0 → attributeAfterFill [.key k] st = none) ∧
      (jget st k = .undefined → attributeAfterFill [.key k] st = none) ∧
      (jget st k = .jstr "0" → attributeAfterFill [.key k] st = some "0") := by
  intro st k
  refine ⟨?_, ?_, ?_, ?_⟩ <;> intro h <;>
    simp [attributeAfterFill, Template.fill, h, truthy, jvalToString]

/-- C8 witness: the policy at concrete states — value `"0"` keeps the
attribute at `"0"`, value `0` removes it. -/
theorem attribute_absence_policy_witness :
    attributeAfterFill [.key "t"] (.jobj [("t", .jstr "0")]) = some "0" ∧
    attributeAfterFill [.key "t"] (.jobj [("t", .jnum 0)]) = none :=
  ⟨(attribute_absence_policy (.jobj [("t", .jstr "0")]) "t").2.2.2 rfl,
   (attribute_absence_policy (.jobj [("t", .jnum 0)]) "t").2.1 rfl⟩
